import Mathlib

/-!
Shallow embedding of the geekhouse-esp firmware core (Phase 2 multi-task
architecture) and proofs about it.

Conventions of the embedding:
* C `int` raw samples are modelled as `ℤ`; `uint32_t` timestamps as `ℕ`
  (they are only stored and compared here, never overflowed by arithmetic).
* C `float` values (calibrated values, statistic sums) are modelled as `ℚ`:
  every float computation in the sources is on small integral inputs, and
  the properties of interest are the exact arithmetic formulas the spec
  states.
* FreeRTOS tick periods (`pdMS_TO_TICKS(x)`) are modelled by their
  millisecond argument `x`, which is injective for the values used.
* Each fallible FreeRTOS primitive outcome (mutex take, event-group wait,
  queue send) is an explicit boolean/option parameter of the function that
  calls it, so a single execution path of a task iteration is a pure
  function of those outcomes.
-/

namespace Geekhouse

/-- Subset of `esp_err_t` codes returned by the drivers in this repository:
`ESP_OK`, `ESP_ERR_INVALID_ARG`, `ESP_ERR_TIMEOUT`, `ESP_FAIL`, and a
constructor for any other device error code forwarded from the ADC layer. -/
inductive EspErr where
  | ok
  | invalidArg
  | timeout
  | fail
  | deviceError (code : ℕ)
deriving DecidableEq, Repr

/-- The two ADC sensor channels, `sensor_id_t` in sensors.h (values 0 and 1;
`SENSOR_COUNT = 2`). -/
def SENSOR_COUNT : ℕ := 2

/-- Linear calibration parameters, `linear_calib_t` in sensors.h. -/
structure LinearCalib where
  m : ℚ
  b : ℚ
deriving DecidableEq, Repr

/-- Polynomial calibration parameters, `poly_calib_t` in sensors.h. -/
structure PolyCalib where
  a : ℚ
  b : ℚ
  c : ℚ
deriving DecidableEq, Repr

/-- Calibration variant, the tag `calib_type_t` together with the union
payload from `calibration_t` in sensors.h. -/
inductive CalibFunc where
  | calibLinear (lin : LinearCalib)
  | calibPolynomial (poly : PolyCalib)
  | calibNone
deriving DecidableEq, Repr

/-- Calibration configuration, `calibration_t` in sensors.h: the variant
plus the unit string. -/
structure CalibrationT where
  func : CalibFunc
  unit : String
deriving DecidableEq, Repr

/-- Function `apply_linear_calibration` of sensors.c (lines 37-39):
y = m·x + b. -/
def apply_linear_calibration (raw : ℤ) (calib : LinearCalib) : ℚ :=
  calib.m * (raw : ℚ) + calib.b

/-- Function `apply_polynomial_calibration` of sensors.c (lines 48-51):
y = a·x² + b·x + c. -/
def apply_polynomial_calibration (raw : ℤ) (calib : PolyCalib) : ℚ :=
  let x : ℚ := (raw : ℚ)
  calib.a * x * x + calib.b * x + calib.c

/-- The calibration dispatch switch inside `sensor_read` of sensors.c
(lines 123-138): `CALIB_LINEAR` and `CALIB_POLYNOMIAL` apply their helper,
`CALIB_NONE` (and the defensive default) widens the raw value. -/
def applyCalibration (raw : ℤ) (func : CalibFunc) : ℚ :=
  match func with
  | .calibLinear lin => apply_linear_calibration raw lin
  | .calibPolynomial poly => apply_polynomial_calibration raw poly
  | .calibNone => (raw : ℚ)

/-- Sensor reading value object, `sensor_reading_t` in sensors.h. -/
structure SensorReading where
  id : ℕ
  raw_value : ℤ
  calibrated_value : ℚ
  unit : String
  timestamp : ℕ
deriving DecidableEq, Repr

/-- Mutable per-channel calibration state of the sensor driver: the
`calib` fields of the static `sensors[]` array in sensors.c (lines 20-28).
Index 0 is `SENSOR_LIGHT_ROOF`, index 1 is `SENSOR_WATER_ROOF`. -/
structure SensorsState where
  lightCalib : CalibrationT
  waterCalib : CalibrationT
deriving DecidableEq, Repr

/-- Selection `sensors[id].calib` for a valid id (0 or 1). -/
def SensorsState.getCalib (st : SensorsState) (id : ℕ) : CalibrationT :=
  if id = 0 then st.lightCalib else st.waterCalib

/-- Assignment `sensors[id].calib = *calib` for a valid id (0 or 1). -/
def SensorsState.setCalib (st : SensorsState) (id : ℕ) (c : CalibrationT) :
    SensorsState :=
  if id = 0 then { st with lightCalib := c } else { st with waterCalib := c }

/-- Function `sensor_read` of sensors.c (lines 96-154), as a pure function
of its execution-path parameters:
`readingNull` models a NULL `reading` out-pointer, `mutexOk` the outcome of
the 100 ms bounded take of `sensor_mutex`, `adcResult` the outcome of
`adc_oneshot_read` (`Except.error` carries the non-OK code the C code
returns verbatim), and `now` the `esp_timer_get_time()/1000` timestamp.
The caller's reading structure is threaded through: the C function writes
its fields only on the success path (lines 143-148), so every error path
returns the structure unchanged. -/
def sensor_read (st : SensorsState) (id : ℕ) (readingNull : Bool)
    (mutexOk : Bool) (adcResult : Except EspErr ℤ) (now : ℕ)
    (reading : SensorReading) : EspErr × SensorReading :=
  if SENSOR_COUNT ≤ id ∨ readingNull then (.invalidArg, reading)
  else if ¬ mutexOk then (.timeout, reading)
  else
    match adcResult with
    | .error ret => (ret, reading)
    | .ok raw_value =>
        let calib := st.getCalib id
        let calibrated_value := applyCalibration raw_value calib.func
        (.ok, { id := id, raw_value := raw_value,
                calibrated_value := calibrated_value,
                unit := calib.unit, timestamp := now })

/-- Function `sensor_set_calibration` of sensors.c (lines 156-178), as a
pure function of its execution-path parameters: `calib = none` models a
NULL `calib` pointer, `mutexOk` the outcome of the 100 ms bounded take of
`sensor_mutex`. -/
def sensor_set_calibration (st : SensorsState) (id : ℕ)
    (calib : Option CalibrationT) (mutexOk : Bool) : EspErr × SensorsState :=
  match calib with
  | Option.none => (.invalidArg, st)
  | Option.some c =>
      if SENSOR_COUNT ≤ id then (.invalidArg, st)
      else if ¬ mutexOk then (.timeout, st)
      else (.ok, st.setCalib id c)

/-- Shared snapshot record `shared_sensor_data_t` of sensor_data_shared.h
(lines 8-14), the single instance `g_shared_sensor_data` protected by
`g_shared_data_mutex`. -/
structure SharedSensorData where
  light_raw : ℤ
  light_calibrated : ℚ
  water_raw : ℤ
  water_calibrated : ℚ
  timestamp : ℕ
deriving DecidableEq, Repr

/-- The light-channel critical section of `sensor_task` in sensor_task.c
(lines 36-38): assigns `light_raw`, `light_calibrated` and `timestamp`
from the fresh reading. -/
def update_shared_light (d : SharedSensorData) (r : SensorReading) :
    SharedSensorData :=
  { d with light_raw := r.raw_value, light_calibrated := r.calibrated_value,
           timestamp := r.timestamp }

/-- The water-channel critical section of `sensor_task` in sensor_task.c
(lines 57-58): assigns `water_raw` and `water_calibrated` from the fresh
reading (the C code does not assign `timestamp` here). -/
def update_shared_water (d : SharedSensorData) (r : SensorReading) :
    SharedSensorData :=
  { d with water_raw := r.raw_value, water_calibrated := r.calibrated_value }

/-- The two channels as named by the event-group bits of reporter_task.h
(`LIGHT_SENSOR_READY_BIT`, `WATER_SENSOR_READY_BIT`). -/
inductive Channel where
  | light
  | water
deriving DecidableEq, Repr

/-- Dispatch of the per-channel store write: `update_shared_light` for the
light channel, `update_shared_water` for the water channel. -/
def update_shared (ch : Channel) (d : SharedSensorData) (r : SensorReading) :
    SharedSensorData :=
  match ch with
  | .light => update_shared_light d r
  | .water => update_shared_water d r

/-- Millisecond period constants of `led_timer_callback` in main.c: the
timer starts at `pdMS_TO_TICKS(500)` and switches between 500 ms and
100 ms. -/
def LED_PERIOD_LONG : ℕ := 500

/-- Short blink period of `led_timer_callback` (100 ms). -/
def LED_PERIOD_SHORT : ℕ := 100

/-- The two `static TickType_t` variables of `led_timer_callback` in main.c
(lines 45-46), both initialized to `pdMS_TO_TICKS(500)`. -/
structure LedTimerState where
  current_period : ℕ
  new_period : ℕ
deriving DecidableEq, Repr

/-- Initial value of the callback statics: both periods 500 ms. -/
def ledTimerInit : LedTimerState :=
  { current_period := LED_PERIOD_LONG, new_period := LED_PERIOD_LONG }

/-- The period-adjustment logic of `led_timer_callback` in main.c
(lines 48-59), as a function of the water value the callback reads
(`g_latest_water_reading`, main.c line 23) and the callback's static
state: two sequential ifs update `new_period`, then the timer period
(`current_period`) is changed only when the computed period differs. -/
def led_timer_callback (water : ℤ) (s : LedTimerState) : LedTimerState :=
  let np0 := if water > 30 then LED_PERIOD_SHORT else s.new_period
  let np1 := if water < 15 then LED_PERIOD_LONG else np0
  if np1 ≠ s.current_period then
    { current_period := np1, new_period := np1 }
  else
    { s with new_period := np1 }

/-- Rolling statistics accumulator `sensor_stats_t` of reporter_task
(src/unnamed/part_001, lines 34-42). Sums are C floats accumulating 12-bit
integers, modelled exactly as rationals; `count` is only incremented and
reset, modelled as ℕ. -/
structure SensorStats where
  light_min : ℤ
  light_max : ℤ
  light_sum : ℚ
  water_min : ℤ
  water_max : ℤ
  water_sum : ℚ
  count : ℕ
deriving DecidableEq, Repr

/-- Window size `HISTORY_SIZE` of reporter_task (line 31). -/
def HISTORY_SIZE : ℕ := 10

/-- The accumulator state reporter_task starts from (lines 46-50) and
resets to after each summary (lines 119-125): min fields at the maximum
possible raw value 4095, max fields at 0, sums and count at 0. -/
def stats_reset : SensorStats :=
  { light_min := 4095, light_max := 0, light_sum := 0,
    water_min := 4095, water_max := 0, water_sum := 0, count := 0 }

/-- The statistics-update block of reporter_task (lines 77-93), run once
per accepted joint sample with the snapshot raw values `light` and
`water`. -/
def stats_accept (s : SensorStats) (light water : ℤ) : SensorStats :=
  { light_min := if light < s.light_min then light else s.light_min,
    light_max := if light > s.light_max then light else s.light_max,
    light_sum := s.light_sum + (light : ℚ),
    water_min := if water < s.water_min then water else s.water_min,
    water_max := if water > s.water_max then water else s.water_max,
    water_sum := s.water_sum + (water : ℚ),
    count := s.count + 1 }

/-- Per-channel summary line emitted by reporter_task (lines 111-114). -/
structure Summary where
  light_min : ℤ
  light_max : ℤ
  light_avg : ℚ
  water_min : ℤ
  water_max : ℤ
  water_avg : ℚ
deriving DecidableEq, Repr

/-- The summary block of reporter_task (lines 108-126): when `count` has
reached `HISTORY_SIZE`, emit min/max/avg per channel (avg = sum divided by
`HISTORY_SIZE`) and reset the accumulator; otherwise do nothing. -/
def stats_report (s : SensorStats) : Option Summary × SensorStats :=
  if HISTORY_SIZE ≤ s.count then
    (some { light_min := s.light_min, light_max := s.light_max,
            light_avg := s.light_sum / (HISTORY_SIZE : ℚ),
            water_min := s.water_min, water_max := s.water_max,
            water_avg := s.water_sum / (HISTORY_SIZE : ℚ) },
     stats_reset)
  else (none, s)

/-- Warning logs reporter_task can emit in one loop iteration
(lines 95, 100, 103). -/
inductive ReporterLog where
  | lightTimedOut
  | waterTimedOut
  | mutexFail
deriving DecidableEq, Repr

/-- One loop iteration of `reporter_task` (src/unnamed/part_001,
lines 55-127) as a function of the execution-path parameters:
`lightReady`/`waterReady` are the event-group bits observed by
`xEventGroupWaitBits` (the AND-wait succeeded iff both are set), `mutexOk`
is the outcome of the 100 ms bounded take of `g_shared_data_mutex`, and
`light`/`water` are the snapshot raw values read inside the critical
section. Returns the new accumulator, the summary emitted (if any) and the
warnings logged. -/
def reporter_iteration (s : SensorStats) (lightReady waterReady : Bool)
    (mutexOk : Bool) (light water : ℤ) :
    SensorStats × Option Summary × List ReporterLog :=
  let step : SensorStats × List ReporterLog :=
    if lightReady ∧ waterReady then
      if mutexOk then (stats_accept s light water, [])
      else (s, [ReporterLog.mutexFail])
    else
      (s, (if ¬ lightReady then [ReporterLog.lightTimedOut] else []) ++
          (if ¬ waterReady then [ReporterLog.waterTimedOut] else []))
  let reported := stats_report step.1
  (reported.2, reported.1, step.2)

/-- Capacity of the delivery queue created by `xQueueCreate(10, ...)` in
main.c (line 95). -/
def QUEUE_CAPACITY : ℕ := 10

/-- Modelled from the FreeRTOS queue semantics the repository relies on
(`xQueueSend` with a bounded wait, sensor_task.c lines 30 and 51): the
queue is a FIFO of at most `QUEUE_CAPACITY` readings; a send appends at
the back when space is available within the wait bound and otherwise
returns failure (the bounded block expiring). -/
def queueSend (q : List SensorReading) (r : SensorReading) :
    Option (List SensorReading) :=
  if q.length < QUEUE_CAPACITY then some (q ++ [r]) else none

/-- Modelled from the FreeRTOS queue semantics the repository relies on
(`xQueueReceive`, display_task.c line 25): a receive takes the front item;
on an empty queue the caller stays blocked (none). -/
def queueReceive (q : List SensorReading) :
    Option (SensorReading × List SensorReading) :=
  match q with
  | [] => none
  | r :: rest => some (r, rest)

/-- Enqueue a list of readings in order, dropping each reading whose send
fails (the sensor task's drop policy, sensor_task.c lines 30-33). -/
def enqueueAll (q : List SensorReading) (rs : List SensorReading) :
    List SensorReading :=
  match rs with
  | [] => q
  | r :: rest =>
      match queueSend q r with
      | some q1 => enqueueAll q1 rest
      | none => enqueueAll q rest

/-- Dequeue up to `n` readings, returning them in arrival order together
with the remaining queue. -/
def dequeueAll (n : ℕ) (q : List SensorReading) :
    List SensorReading × List SensorReading :=
  match n with
  | 0 => ([], q)
  | n + 1 =>
      match queueReceive q with
      | none => ([], q)
      | some (r, q1) =>
          let rest := dequeueAll n q1
          (r :: rest.1, rest.2)

/-- Observable actions of one per-channel block of `sensor_task`
(sensor_task.c lines 26-46 for light, 48-66 for water), in program
order. -/
inductive SensorTaskAction where
  | enqueueAttempt (ch : Channel)
  | logQueueFull (ch : Channel)
  | storeWrite (ch : Channel)
  | setReadyBit (ch : Channel)
  | logReadFail (ch : Channel)
deriving DecidableEq, Repr

/-- The action trace of one per-channel block of `sensor_task`
(sensor_task.c lines 26-46 and 48-66), as a function of the
execution-path parameters: `readOk` is whether `sensor_read` returned
`ESP_OK`, `queueAccepts` whether `xQueueSend` succeeded within its 100 ms
bound, `mutexOk` whether the 100 ms take of `g_shared_data_mutex`
succeeded. On read success the code first attempts the queue send
(logging a drop warning on failure), then, when the mutex is obtained,
writes the shared store and sets the channel's readiness bit; on read
failure it only logs. -/
def sensor_channel_actions (ch : Channel) (readOk : Bool)
    (queueAccepts : Bool) (mutexOk : Bool) : List SensorTaskAction :=
  if readOk then
    [SensorTaskAction.enqueueAttempt ch] ++
    (if queueAccepts then [] else [SensorTaskAction.logQueueFull ch]) ++
    (if mutexOk then
      [SensorTaskAction.storeWrite ch, SensorTaskAction.setReadyBit ch]
     else [])
  else [SensorTaskAction.logReadFail ch]

/-- The three mutual-exclusion locks of the firmware core: `sensor_mutex`
(sensors.c line 16), `led_mutex` (actuators.c line 18) and
`g_shared_data_mutex` (sensor_data_shared.h line 18). -/
inductive Lock where
  | sensorMutex
  | ledMutex
  | sharedDataMutex
deriving DecidableEq, Repr

/-- Lock events of a code path: a successful `xSemaphoreTake` and the
matching `xSemaphoreGive`. A take that times out never holds the lock and
contributes no event. -/
inductive LockAction where
  | acquire (l : Lock)
  | release (l : Lock)
deriving DecidableEq, Repr

/-- Run a lock trace from a set of held locks, returning the held set at
the end, or `none` if some release does not match a held lock. -/
def runLocks (held : List Lock) (tr : List LockAction) : Option (List Lock) :=
  match tr with
  | [] => some held
  | LockAction.acquire l :: rest => runLocks (l :: held) rest
  | LockAction.release l :: rest =>
      if l ∈ held then runLocks (held.erase l) rest else none

/-- A trace never holds two locks simultaneously and is well-formed: from
an empty held set, every prefix keeps at most one lock held, every release
matches, and the trace ends with no lock held. -/
def locksDisciplined (tr : List LockAction) : Bool :=
  go [] tr
where
  /-- Walk the trace tracking the held set; fail when the held set ever
  exceeds one lock or a release does not match. -/
  go (held : List Lock) : List LockAction → Bool
    | [] => held.isEmpty
    | LockAction.acquire l :: rest =>
        held.isEmpty && go [l] rest
    | LockAction.release l :: rest =>
        (l ∈ held : Bool) && go (held.erase l) rest

/-- Lock trace of `sensor_read` (sensors.c lines 96-154): on valid
arguments, take `sensor_mutex`; if the take succeeds, release it either
on the ADC-failure path (line 113) or right after the read (line 120),
before calibration. -/
def sensor_read_lock_trace (validArgs mutexOk : Bool) : List LockAction :=
  if ¬ validArgs then []
  else if ¬ mutexOk then []
  else [LockAction.acquire Lock.sensorMutex,
        LockAction.release Lock.sensorMutex]

/-- Lock trace of `sensor_set_calibration` (sensors.c lines 156-178). -/
def sensor_set_calibration_lock_trace (validArgs mutexOk : Bool) :
    List LockAction :=
  if ¬ validArgs then []
  else if ¬ mutexOk then []
  else [LockAction.acquire Lock.sensorMutex,
        LockAction.release Lock.sensorMutex]

/-- Lock trace shared by `led_on`, `led_off`, `led_toggle` and
`led_get_state` (actuators.c lines 57-149): take `led_mutex`, mutate or
read the cached state, release. No other lock is touched while it is
held. -/
def led_op_lock_trace (validArgs mutexOk : Bool) : List LockAction :=
  if ¬ validArgs then []
  else if ¬ mutexOk then []
  else [LockAction.acquire Lock.ledMutex,
        LockAction.release Lock.ledMutex]

/-- Lock trace of one per-channel block of `sensor_task` (sensor_task.c
lines 26-46 and 48-66): the `sensor_read` trace, then (queue operations
use no external lock), then on read success the bounded take of
`g_shared_data_mutex` for the store write; the readiness bit is set after
the release (line 39 before line 42, line 59 before line 62). -/
def sensor_task_channel_lock_trace (readMutexOk readOk storeMutexOk : Bool) :
    List LockAction :=
  sensor_read_lock_trace true readMutexOk ++
  (if readOk then
    (if storeMutexOk then
      [LockAction.acquire Lock.sharedDataMutex,
       LockAction.release Lock.sharedDataMutex]
     else [])
   else [])

/-- Lock trace of one full `sensor_task` cycle (both channels,
sensor_task.c lines 25-71). -/
def sensor_task_cycle_lock_trace (lightReadMutexOk lightReadOk
    lightStoreMutexOk waterReadMutexOk waterReadOk waterStoreMutexOk :
    Bool) : List LockAction :=
  sensor_task_channel_lock_trace lightReadMutexOk lightReadOk
    lightStoreMutexOk ++
  sensor_task_channel_lock_trace waterReadMutexOk waterReadOk
    waterStoreMutexOk

/-- Lock trace of one `reporter_task` iteration (src/unnamed/part_001,
lines 55-127): only on a full AND-match with a successful bounded take
does it hold `g_shared_data_mutex`, releasing it before the statistics
update (line 74 before lines 77-93). -/
def reporter_iteration_lock_trace (bothReady mutexOk : Bool) :
    List LockAction :=
  if bothReady ∧ mutexOk then
    [LockAction.acquire Lock.sharedDataMutex,
     LockAction.release Lock.sharedDataMutex]
  else []

/-- Lock trace of one `led_timer_callback` invocation (main.c
lines 39-60): two `led_toggle` calls; the period logic touches no lock. -/
def led_timer_callback_lock_trace (toggle1MutexOk toggle2MutexOk : Bool) :
    List LockAction :=
  led_op_lock_trace true toggle1MutexOk ++ led_op_lock_trace true toggle2MutexOk

/-- Lock trace of one `display_task` iteration (display_task.c
lines 21-45): the queue's internal synchronization only; none of the
three mutexes is touched. -/
def display_iteration_lock_trace : List LockAction := []

/-- Initial calibration configuration of both channels in the static
`sensors[]` array of sensors.c (lines 20-28): `CALIB_NONE` with unit
"raw". -/
def calibInitial : CalibrationT := { func := CalibFunc.calibNone, unit := "raw" }

/-- Initial sensor driver state from sensors.c lines 20-28. -/
def sensorsInit : SensorsState :=
  { lightCalib := calibInitial, waterCalib := calibInitial }

/-- C8: calibration is a pure total function of the raw value and the
calibration variant: `CALIB_NONE` widens the raw value, linear yields
m·raw + b, polynomial yields a·raw² + b·raw + c; `Linear{m=1,b=0}` is the
identity on the raw value and for m > 0 the linear result is monotone in
the raw value. -/
theorem calibrate_formulas (raw x y : ℤ) (m b a c : ℚ)
    (hm : 0 < m) (hxy : x ≤ y) :
    applyCalibration raw CalibFunc.calibNone = (raw : ℚ) ∧
    applyCalibration raw (CalibFunc.calibLinear ⟨m, b⟩) = m * (raw : ℚ) + b ∧
    applyCalibration raw (CalibFunc.calibPolynomial ⟨a, b, c⟩) =
      a * (raw : ℚ) * (raw : ℚ) + b * (raw : ℚ) + c ∧
    applyCalibration raw (CalibFunc.calibLinear ⟨1, 0⟩) = (raw : ℚ) ∧
    applyCalibration x (CalibFunc.calibLinear ⟨m, b⟩) ≤
      applyCalibration y (CalibFunc.calibLinear ⟨m, b⟩) := by
  refine ⟨rfl, rfl, rfl, ?_, ?_⟩
  · simp [applyCalibration, apply_linear_calibration]
  · have hc : (x : ℚ) ≤ (y : ℚ) := by exact_mod_cast hxy
    simp only [applyCalibration, apply_linear_calibration]
    nlinarith

/-- Witness for `calibrate_formulas` at raw = 7, x = 3, y = 5, m = 2,
b = 1, a = 4, c = 6. -/
theorem calibrate_formulas_witness :
    ((0 : ℚ) < 2 ∧ (3 : ℤ) ≤ 5) ∧
    (applyCalibration 7 CalibFunc.calibNone = ((7 : ℤ) : ℚ) ∧
     applyCalibration 7 (CalibFunc.calibLinear ⟨2, 1⟩) = 2 * ((7 : ℤ) : ℚ) + 1 ∧
     applyCalibration 7 (CalibFunc.calibPolynomial ⟨4, 1, 6⟩) =
       4 * ((7 : ℤ) : ℚ) * ((7 : ℤ) : ℚ) + 1 * ((7 : ℤ) : ℚ) + 6 ∧
     applyCalibration 7 (CalibFunc.calibLinear ⟨1, 0⟩) = ((7 : ℤ) : ℚ) ∧
     applyCalibration 3 (CalibFunc.calibLinear ⟨2, 1⟩) ≤
       applyCalibration 5 (CalibFunc.calibLinear ⟨2, 1⟩)) :=
  ⟨⟨by norm_num, by decide⟩,
   calibrate_formulas 7 3 5 2 1 4 6 (by norm_num) (by decide)⟩

/-- C10: `sensor_read` writes the caller's reading structure only on the
success path — every call that returns a non-OK code (invalid channel,
null out-pointer, mutex timeout, or ADC failure) leaves the structure
exactly as the caller supplied it. -/
theorem sensor_read_error_atomic (st : SensorsState) (id : ℕ)
    (readingNull mutexOk : Bool) (adcResult : Except EspErr ℤ) (now : ℕ)
    (reading : SensorReading)
    (h : (sensor_read st id readingNull mutexOk adcResult now reading).1 ≠
      EspErr.ok) :
    (sensor_read st id readingNull mutexOk adcResult now reading).2 =
      reading := by
  rcases adcResult with e | raw <;>
    simp only [sensor_read] at h ⊢ <;>
    split_ifs at h ⊢ <;>
    first
      | rfl
      | exact absurd rfl h

/-- Witness for `sensor_read_error_atomic`: an out-of-range channel id
(5) returns the reading unchanged. -/
theorem sensor_read_error_atomic_witness :
    (sensor_read sensorsInit 5 false true (Except.ok 321) 42
        ⟨0, 9, 9, "raw", 7⟩).1 ≠ EspErr.ok ∧
    (sensor_read sensorsInit 5 false true (Except.ok 321) 42
        ⟨0, 9, 9, "raw", 7⟩).2 = ⟨0, 9, 9, "raw", 7⟩ :=
  ⟨by decide,
   sensor_read_error_atomic sensorsInit 5 false true (Except.ok 321) 42
     ⟨0, 9, 9, "raw", 7⟩ (by decide)⟩

/-- C7 counterexample: for a valid channel and non-null calibration, a
timed-out mutex acquisition makes `sensor_set_calibration` fail with
`ESP_ERR_TIMEOUT`, which is neither success nor the invalid-channel
rejection — so the operation does not fail with `InvalidChannel` only. -/
theorem sensor_set_calibration_timeout_cex :
    (sensor_set_calibration sensorsInit 0 (some calibInitial) false).1 =
      EspErr.timeout ∧
    EspErr.timeout ≠ EspErr.ok ∧
    EspErr.timeout ≠ EspErr.invalidArg := by
  exact ⟨rfl, by decide, by decide⟩

/-- C7 amended: for every valid channel with a non-null calibration,
`sensor_set_calibration` replaces that channel's stored calibration and
succeeds when the mutex is acquired within its bound; over all channel
ids, its failures are exactly the invalid-argument rejection — which
occurs precisely for an out-of-range channel or a null calibration
pointer — and the mutex-acquisition timeout, which occurs precisely for
a valid channel with a non-null pointer whose bounded mutex take
expires. -/
theorem sensor_set_calibration_spec (st : SensorsState) (id : ℕ)
    (c : CalibrationT) (calib : Option CalibrationT) (mutexOk : Bool) :
    (id < SENSOR_COUNT →
      sensor_set_calibration st id (some c) true =
        (EspErr.ok, st.setCalib id c)) ∧
    ((sensor_set_calibration st id calib mutexOk).1 = EspErr.invalidArg ↔
      SENSOR_COUNT ≤ id ∨ calib = none) ∧
    ((sensor_set_calibration st id calib mutexOk).1 = EspErr.timeout ↔
      (id < SENSOR_COUNT ∧ calib ≠ none ∧ mutexOk = false)) ∧
    ((sensor_set_calibration st id calib mutexOk).1 = EspErr.ok ↔
      (id < SENSOR_COUNT ∧ calib ≠ none ∧ mutexOk = true)) := by
  refine ⟨?_, ?_, ?_, ?_⟩ <;>
    rcases calib with _ | c0 <;>
    rcases mutexOk with _ | _ <;>
    by_cases hid : SENSOR_COUNT ≤ id <;>
    simp [sensor_set_calibration, hid] <;>
    omega

/-- Witness for `sensor_set_calibration_spec` at the valid channel 0
with an acquired mutex, and at the out-of-range channel 5 with a
timed-out mutex (where only the invalid-argument rejection holds). -/
theorem sensor_set_calibration_spec_witness :
    ((0 < SENSOR_COUNT →
      sensor_set_calibration sensorsInit 0 (some calibInitial) true =
        (EspErr.ok, sensorsInit.setCalib 0 calibInitial)) ∧
     ((sensor_set_calibration sensorsInit 0 (some calibInitial) true).1 =
        EspErr.invalidArg ↔
       SENSOR_COUNT ≤ 0 ∨ (some calibInitial : Option CalibrationT) = none) ∧
     ((sensor_set_calibration sensorsInit 0 (some calibInitial) true).1 =
        EspErr.timeout ↔
       (0 < SENSOR_COUNT ∧ (some calibInitial : Option CalibrationT) ≠ none ∧
        true = false)) ∧
     ((sensor_set_calibration sensorsInit 0 (some calibInitial) true).1 =
        EspErr.ok ↔
       (0 < SENSOR_COUNT ∧ (some calibInitial : Option CalibrationT) ≠ none ∧
        true = true))) ∧
    ((5 < SENSOR_COUNT →
      sensor_set_calibration sensorsInit 5 (some calibInitial) true =
        (EspErr.ok, sensorsInit.setCalib 5 calibInitial)) ∧
     ((sensor_set_calibration sensorsInit 5 (some calibInitial) false).1 =
        EspErr.invalidArg ↔
       SENSOR_COUNT ≤ 5 ∨ (some calibInitial : Option CalibrationT) = none) ∧
     ((sensor_set_calibration sensorsInit 5 (some calibInitial) false).1 =
        EspErr.timeout ↔
       (5 < SENSOR_COUNT ∧ (some calibInitial : Option CalibrationT) ≠ none ∧
        false = false)) ∧
     ((sensor_set_calibration sensorsInit 5 (some calibInitial) false).1 =
        EspErr.ok ↔
       (5 < SENSOR_COUNT ∧ (some calibInitial : Option CalibrationT) ≠ none ∧
        false = true))) :=
  ⟨sensor_set_calibration_spec sensorsInit 0 calibInitial
     (some calibInitial) true,
   sensor_set_calibration_spec sensorsInit 5 calibInitial
     (some calibInitial) false⟩

/-- C2 counterexample: the water-channel store update leaves the shared
timestamp unchanged — a water reading stamped 1000 written over a store
stamped 0 leaves the store timestamp at 0 — so the claim that the
timestamp is updated on every channel's update fails. -/
theorem update_shared_water_timestamp_cex :
    (update_shared_water ⟨1, 1, 2, 2, 0⟩ ⟨1, 7, 7, "raw", 1000⟩).timestamp
      = 0 ∧ (1000 : ℕ) ≠ 0 :=
  ⟨rfl, by decide⟩

/-- C2 amended: the light-channel update mutates exactly the light fields
plus the shared timestamp; the water-channel update mutates exactly the
water fields and leaves the timestamp (and the light fields) unchanged. -/
theorem update_shared_frame (d : SharedSensorData) (r : SensorReading) :
    (update_shared_light d r).light_raw = r.raw_value ∧
    (update_shared_light d r).light_calibrated = r.calibrated_value ∧
    (update_shared_light d r).timestamp = r.timestamp ∧
    (update_shared_light d r).water_raw = d.water_raw ∧
    (update_shared_light d r).water_calibrated = d.water_calibrated ∧
    (update_shared_water d r).water_raw = r.raw_value ∧
    (update_shared_water d r).water_calibrated = r.calibrated_value ∧
    (update_shared_water d r).light_raw = d.light_raw ∧
    (update_shared_water d r).light_calibrated = d.light_calibrated ∧
    (update_shared_water d r).timestamp = d.timestamp :=
  ⟨rfl, rfl, rfl, rfl, rfl, rfl, rfl, rfl, rfl, rfl⟩

/-- C6 counterexample: on a fully successful light-channel block the
sensor task's action trace is enqueue attempt, then store write, then
readiness-bit set — the enqueue attempt comes first, not after the
readiness bit as the claim orders the operations. -/
theorem sensor_task_order_cex :
    sensor_channel_actions Channel.light true true true =
      [SensorTaskAction.enqueueAttempt Channel.light,
       SensorTaskAction.storeWrite Channel.light,
       SensorTaskAction.setReadyBit Channel.light] ∧
    ¬ ((sensor_channel_actions Channel.light true true true).indexOf
          (SensorTaskAction.setReadyBit Channel.light) <
        (sensor_channel_actions Channel.light true true true).indexOf
          (SensorTaskAction.enqueueAttempt Channel.light)) := by
  decide

/-- C6 amended: within each cycle, for every successfully sampled channel
the bounded-wait enqueue attempt happens first; then, when the store
mutex is acquired, the Shared Reading Store write happens, followed by
the readiness-bit set; when the store mutex times out, neither the store
write nor the readiness bit happens. -/
theorem sensor_task_channel_order :
    ∀ (ch : Channel) (queueAccepts : Bool),
      (SensorTaskAction.enqueueAttempt ch ∈
        sensor_channel_actions ch true queueAccepts true ∧
       SensorTaskAction.storeWrite ch ∈
        sensor_channel_actions ch true queueAccepts true ∧
       SensorTaskAction.setReadyBit ch ∈
        sensor_channel_actions ch true queueAccepts true ∧
       (sensor_channel_actions ch true queueAccepts true).indexOf
          (SensorTaskAction.enqueueAttempt ch) <
        (sensor_channel_actions ch true queueAccepts true).indexOf
          (SensorTaskAction.storeWrite ch) ∧
       (sensor_channel_actions ch true queueAccepts true).indexOf
          (SensorTaskAction.storeWrite ch) <
        (sensor_channel_actions ch true queueAccepts true).indexOf
          (SensorTaskAction.setReadyBit ch)) ∧
      (SensorTaskAction.storeWrite ch ∉
        sensor_channel_actions ch true queueAccepts false ∧
       SensorTaskAction.setReadyBit ch ∉
        sensor_channel_actions ch true queueAccepts false) := by
  intro ch queueAccepts
  cases ch <;> cases queueAccepts <;> decide

/-- C9: in every code path of the firmware core — the sensor driver reads
and calibration updates, the actuator operations, each sensor-task cycle,
each reporter iteration, the LED timer callback and the display loop —
the lock trace is disciplined: at most one of the three mutexes
(`sensor_mutex`, `led_mutex`, `g_shared_data_mutex`) is held at any
point, every release matches and no lock is held at the end. -/
theorem no_two_locks_held :
    (∀ a b : Bool, locksDisciplined (sensor_read_lock_trace a b) = true) ∧
    (∀ a b : Bool,
      locksDisciplined (sensor_set_calibration_lock_trace a b) = true) ∧
    (∀ a b : Bool, locksDisciplined (led_op_lock_trace a b) = true) ∧
    (∀ a b c d e f : Bool,
      locksDisciplined (sensor_task_cycle_lock_trace a b c d e f) = true) ∧
    (∀ a b : Bool,
      locksDisciplined (reporter_iteration_lock_trace a b) = true) ∧
    (∀ a b : Bool,
      locksDisciplined (led_timer_callback_lock_trace a b) = true) ∧
    locksDisciplined display_iteration_lock_trace = true := by
  decide

/-- After any invocation the two static periods of the LED timer callback
agree, so the reached states satisfy the invariant the hysteresis
argument uses. -/
theorem led_timer_callback_agrees (water : ℤ) (s : LedTimerState) :
    (led_timer_callback water s).current_period =
      (led_timer_callback water s).new_period := by
  by_cases h15 : water < 15 <;> by_cases h30 : 30 < water <;>
    simp only [led_timer_callback, h15, h30, if_true, if_false,
      ite_true, ite_false] <;>
    split <;> simp_all

/-- C1: the LED timer callback's period is computed from the water value
it reads with hysteresis: above 30 the period becomes the 100 ms short
value, below 15 it becomes the 500 ms long value, and for any value
between the thresholds the callback's state — and hence the timer
period — is left unchanged; consequently any sequence of values strictly
between the thresholds never changes the period again after a switch. -/
theorem led_timer_hysteresis (water : ℤ) (s : LedTimerState)
    (hinv : s.current_period = s.new_period) :
    (30 < water →
      (led_timer_callback water s).current_period = LED_PERIOD_SHORT) ∧
    (water < 15 →
      (led_timer_callback water s).current_period = LED_PERIOD_LONG) ∧
    (15 ≤ water → water ≤ 30 → led_timer_callback water s = s) ∧
    (∀ l : List ℤ, (∀ v ∈ l, 15 < v ∧ v < 30) →
      l.foldl (fun st v => led_timer_callback v st) s = s) := by
  have hmid : ∀ w : ℤ, 15 ≤ w → w ≤ 30 → led_timer_callback w s = s := by
    intro w h15 h30
    have hn : ¬ 30 < w := not_lt.mpr h30
    have hl : ¬ w < 15 := not_lt.mpr h15
    simp only [led_timer_callback, if_neg hn, if_neg hl, ← hinv, ne_eq,
      not_true_eq_false, if_false, ite_false]
    cases s
    simp_all
  refine ⟨?_, ?_, hmid water, ?_⟩
  · intro hgt
    have hl : ¬ water < 15 := by omega
    simp only [led_timer_callback, if_pos hgt, if_neg hl]
    split <;> simp_all
  · intro hlt
    simp only [led_timer_callback, if_pos hlt]
    split <;> simp_all
  · intro l hl
    induction l with
    | nil => rfl
    | cons v rest ih =>
        have hv := hl v (List.mem_cons_self v rest)
        have hstep : led_timer_callback v s = s :=
          hmid v (le_of_lt hv.1) (le_of_lt hv.2)
        have hrest : ∀ w ∈ rest, 15 < w ∧ w < 30 := by
          intro w hw
          exact hl w (List.mem_cons_of_mem v hw)
        simpa [hstep] using ih hrest

/-- Witness for `led_timer_hysteresis` at the switched-short state
(both periods 100 ms). -/
theorem led_timer_hysteresis_witness :
    ((⟨LED_PERIOD_SHORT, LED_PERIOD_SHORT⟩ : LedTimerState).current_period =
      (⟨LED_PERIOD_SHORT, LED_PERIOD_SHORT⟩ : LedTimerState).new_period) ∧
    ((30 < (20 : ℤ) →
      (led_timer_callback 20 ⟨LED_PERIOD_SHORT, LED_PERIOD_SHORT⟩).current_period =
        LED_PERIOD_SHORT) ∧
     ((20 : ℤ) < 15 →
      (led_timer_callback 20 ⟨LED_PERIOD_SHORT, LED_PERIOD_SHORT⟩).current_period =
        LED_PERIOD_LONG) ∧
     ((15 : ℤ) ≤ 20 → (20 : ℤ) ≤ 30 →
      led_timer_callback 20 ⟨LED_PERIOD_SHORT, LED_PERIOD_SHORT⟩ =
        ⟨LED_PERIOD_SHORT, LED_PERIOD_SHORT⟩) ∧
     (∀ l : List ℤ, (∀ v ∈ l, 15 < v ∧ v < 30) →
      l.foldl (fun st v => led_timer_callback v st)
          ⟨LED_PERIOD_SHORT, LED_PERIOD_SHORT⟩ =
        ⟨LED_PERIOD_SHORT, LED_PERIOD_SHORT⟩)) :=
  ⟨rfl, led_timer_hysteresis 20 ⟨LED_PERIOD_SHORT, LED_PERIOD_SHORT⟩ rfl⟩

/-- C4: a reporter iteration whose joint wait comes back without both
readiness bits set leaves the rolling statistics untouched, emits no
summary, and logs exactly the channels whose bit was missing. -/
theorem reporter_timeout_no_update (s : SensorStats)
    (lightReady waterReady mutexOk : Bool) (light water : ℤ)
    (hcount : s.count < HISTORY_SIZE)
    (hmiss : ¬ (lightReady = true ∧ waterReady = true)) :
    (reporter_iteration s lightReady waterReady mutexOk light water).1 = s ∧
    (reporter_iteration s lightReady waterReady mutexOk light water).2.1 =
      none ∧
    (ReporterLog.lightTimedOut ∈
        (reporter_iteration s lightReady waterReady mutexOk light water).2.2 ↔
      lightReady = false) ∧
    (ReporterLog.waterTimedOut ∈
        (reporter_iteration s lightReady waterReady mutexOk light water).2.2 ↔
      waterReady = false) := by
  have hrep : stats_report s = (none, s) := by
    simp [stats_report, Nat.not_le.mpr hcount]
  cases lightReady <;> cases waterReady <;>
    simp_all [reporter_iteration, stats_report, Nat.not_le.mpr hcount]

/-- Witness for `reporter_timeout_no_update`: from the reset accumulator,
a wait that saw only the water bit logs the light channel and changes
nothing. -/
theorem reporter_timeout_no_update_witness :
    (stats_reset.count < HISTORY_SIZE ∧
      ¬ (false = true ∧ true = true)) ∧
    ((reporter_iteration stats_reset false true true 100 200).1 =
        stats_reset ∧
     (reporter_iteration stats_reset false true true 100 200).2.1 = none ∧
     (ReporterLog.lightTimedOut ∈
        (reporter_iteration stats_reset false true true 100 200).2.2 ↔
       false = false) ∧
     (ReporterLog.waterTimedOut ∈
        (reporter_iteration stats_reset false true true 100 200).2.2 ↔
       true = false)) :=
  ⟨⟨by decide, by decide⟩,
   reporter_timeout_no_update stats_reset false true true 100 200
     (by decide) (by decide)⟩

/-- Enqueues that stay within the capacity append in arrival order. -/
theorem enqueueAll_append (rs : List SensorReading) :
    ∀ q : List SensorReading, q.length + rs.length ≤ QUEUE_CAPACITY →
      enqueueAll q rs = q ++ rs := by
  induction rs with
  | nil => intro q h; simp [enqueueAll]
  | cons r rest ih =>
      intro q h
      have hlt : q.length < QUEUE_CAPACITY := by
        simp only [List.length_cons] at h
        omega
      simp only [enqueueAll, queueSend, if_pos hlt]
      rw [ih (q ++ [r]) (by simp only [List.length_append,
        List.length_singleton]; simp only [List.length_cons] at h; omega)]
      simp

/-- Dequeuing a queue's whole length returns its items front-first and
empties it. -/
theorem dequeueAll_all (q : List SensorReading) :
    dequeueAll q.length q = (q, []) := by
  induction q with
  | nil => rfl
  | cons r rest ih => simp [dequeueAll, queueReceive, ih]

/-- C5: the delivery queue is a capacity-10 FIFO — any sequence of at
most 10 enqueues followed by that many dequeues comes back in enqueue
order, a successful send never brings the queue above capacity, a send
fails only when the queue already holds the full capacity, and the
sensor task logs a queue-full warning (dropping the reading) whenever
its bounded-wait send fails. -/
theorem delivery_queue_fifo_bounded (rs q q1 : List SensorReading)
    (r : SensorReading) (hlen : rs.length ≤ QUEUE_CAPACITY) :
    (dequeueAll rs.length (enqueueAll [] rs)).1 = rs ∧
    (queueSend q r = some q1 → q1.length ≤ QUEUE_CAPACITY) ∧
    (queueSend q r = none → QUEUE_CAPACITY ≤ q.length) ∧
    (∀ ch : Channel, ∀ mOk : Bool,
      SensorTaskAction.logQueueFull ch ∈
        sensor_channel_actions ch true false mOk) := by
  refine ⟨?_, ?_, ?_, ?_⟩
  · rw [enqueueAll_append rs [] (by simpa using hlen)]
    rw [List.nil_append]
    rw [dequeueAll_all rs]
  · intro hsend
    simp only [queueSend] at hsend
    split_ifs at hsend with hq
    · cases hsend
      simp only [List.length_append, List.length_singleton]
      omega
  · intro hsend
    simp only [queueSend] at hsend
    split_ifs at hsend with hq
    omega
  · intro ch mOk
    cases ch <;> cases mOk <;> decide

/-- Witness for `delivery_queue_fifo_bounded` at a two-element enqueue
sequence, the empty queue, and a sample reading. -/
theorem delivery_queue_fifo_bounded_witness :
    (([⟨0, 2847, 2847, "raw", 1⟩, ⟨1, 1534, 1534, "raw", 2⟩] :
        List SensorReading).length ≤ QUEUE_CAPACITY) ∧
    ((dequeueAll
        ([⟨0, 2847, 2847, "raw", 1⟩, ⟨1, 1534, 1534, "raw", 2⟩] :
          List SensorReading).length
        (enqueueAll []
          [⟨0, 2847, 2847, "raw", 1⟩, ⟨1, 1534, 1534, "raw", 2⟩])).1 =
      [⟨0, 2847, 2847, "raw", 1⟩, ⟨1, 1534, 1534, "raw", 2⟩] ∧
    (queueSend [] ⟨0, 5, 5, "raw", 3⟩ = some [] →
      ([] : List SensorReading).length ≤ QUEUE_CAPACITY) ∧
    (queueSend [] ⟨0, 5, 5, "raw", 3⟩ = none →
      QUEUE_CAPACITY ≤ ([] : List SensorReading).length) ∧
    (∀ ch : Channel, ∀ mOk : Bool,
      SensorTaskAction.logQueueFull ch ∈
        sensor_channel_actions ch true false mOk)) :=
  ⟨by decide,
   delivery_queue_fifo_bounded
     [⟨0, 2847, 2847, "raw", 1⟩, ⟨1, 1534, 1534, "raw", 2⟩]
     [] [] ⟨0, 5, 5, "raw", 3⟩ (by decide)⟩

/-- The reporter's min-update conditional computes the binary minimum. -/
theorem ite_lt_eq_min (a b : ℤ) : (if a < b then a else b) = min b a := by
  rcases lt_or_le a b with h | h
  · rw [if_pos h, min_eq_right h.le]
  · rw [if_neg (not_lt.mpr h), min_eq_left h]

/-- The reporter's max-update conditional computes the binary maximum. -/
theorem ite_gt_eq_max (a b : ℤ) : (if a > b then a else b) = max b a := by
  rcases lt_or_le b a with h | h
  · rw [if_pos h, max_eq_right h.le]
  · rw [if_neg (not_lt.mpr h), max_eq_left h]

/-- Closed form of folding `stats_accept` over a list of joint samples:
mins and maxes are folds of `min`/`max` over the per-channel
projections, sums accumulate the rational casts, and the count advances
by the number of samples. -/
theorem stats_accept_foldl (pairs : List (ℤ × ℤ)) :
    ∀ s : SensorStats,
      pairs.foldl (fun t p => stats_accept t p.1 p.2) s =
        { light_min := (pairs.map Prod.fst).foldl min s.light_min,
          light_max := (pairs.map Prod.fst).foldl max s.light_max,
          light_sum := s.light_sum + (((pairs.map Prod.fst).sum : ℤ) : ℚ),
          water_min := (pairs.map Prod.snd).foldl min s.water_min,
          water_max := (pairs.map Prod.snd).foldl max s.water_max,
          water_sum := s.water_sum + (((pairs.map Prod.snd).sum : ℤ) : ℚ),
          count := s.count + pairs.length } := by
  induction pairs with
  | nil => intro s; simp
  | cons p rest ih =>
      intro s
      simp only [List.foldl_cons, List.map_cons, List.sum_cons,
        List.length_cons]
      rw [ih]
      simp only [stats_accept, ite_lt_eq_min, ite_gt_eq_max,
        List.foldl_cons]
      congr 1 <;> first | rfl | (push_cast; ring)

/-- A fold of `min` is bounded by its seed and by every list element. -/
theorem foldl_min_le (l : List ℤ) :
    ∀ a : ℤ, l.foldl min a ≤ a ∧ ∀ x ∈ l, l.foldl min a ≤ x := by
  induction l with
  | nil => intro a; exact ⟨le_refl a, by intro x hx; cases hx⟩
  | cons b t ih =>
      intro a
      have h := ih (min a b)
      simp only [List.foldl_cons]
      refine ⟨le_trans h.1 (min_le_left a b), ?_⟩
      intro x hx
      rcases List.mem_cons.mp hx with hxb | hxt
      · rw [hxb]
        exact le_trans h.1 (min_le_right a b)
      · exact h.2 x hxt

/-- A fold of `min` is either its seed or one of the list elements. -/
theorem foldl_min_mem (l : List ℤ) :
    ∀ a : ℤ, l.foldl min a = a ∨ l.foldl min a ∈ l := by
  induction l with
  | nil => intro a; exact Or.inl rfl
  | cons b t ih =>
      intro a
      rcases ih (min a b) with h | h
      · rcases min_choice a b with hab | hab
        · exact Or.inl (by rw [List.foldl_cons, h, hab])
        · exact Or.inr (by rw [List.foldl_cons, h, hab]; exact
            List.mem_cons_self b t)
      · exact Or.inr (List.mem_cons_of_mem b h)

/-- A fold of `max` is bounded below by its seed and by every element. -/
theorem foldl_max_ge (l : List ℤ) :
    ∀ a : ℤ, a ≤ l.foldl max a ∧ ∀ x ∈ l, x ≤ l.foldl max a := by
  induction l with
  | nil => intro a; exact ⟨le_refl a, by intro x hx; cases hx⟩
  | cons b t ih =>
      intro a
      have h := ih (max a b)
      simp only [List.foldl_cons]
      refine ⟨le_trans (le_max_left a b) h.1, ?_⟩
      intro x hx
      rcases List.mem_cons.mp hx with hxb | hxt
      · rw [hxb]
        exact le_trans (le_max_right a b) h.1
      · exact h.2 x hxt

/-- A fold of `max` is either its seed or one of the list elements. -/
theorem foldl_max_mem (l : List ℤ) :
    ∀ a : ℤ, l.foldl max a = a ∨ l.foldl max a ∈ l := by
  induction l with
  | nil => intro a; exact Or.inl rfl
  | cons b t ih =>
      intro a
      rcases ih (max a b) with h | h
      · rcases max_choice a b with hab | hab
        · exact Or.inl (by rw [List.foldl_cons, h, hab])
        · exact Or.inr (by rw [List.foldl_cons, h, hab]; exact
            List.mem_cons_self b t)
      · exact Or.inr (List.mem_cons_of_mem b h)

/-- A fold of `min` whose seed bounds the list from above lands in the
list (for a nonempty list). -/
theorem foldl_min_mem_of_le (l : List ℤ) (a : ℤ) (hne : l ≠ [])
    (hub : ∀ x ∈ l, x ≤ a) : l.foldl min a ∈ l := by
  rcases foldl_min_mem l a with h | h
  · rcases List.exists_mem_of_ne_nil l hne with ⟨y, hy⟩
    have h1 := (foldl_min_le l a).2 y hy
    have h2 : y ≤ l.foldl min a := by
      rw [h]
      exact hub y hy
    have h3 : l.foldl min a = y := le_antisymm h1 h2
    rw [h3]
    exact hy
  · exact h

/-- A fold of `max` whose seed bounds the list from below lands in the
list (for a nonempty list). -/
theorem foldl_max_mem_of_le (l : List ℤ) (a : ℤ) (hne : l ≠ [])
    (hlb : ∀ x ∈ l, a ≤ x) : l.foldl max a ∈ l := by
  rcases foldl_max_mem l a with h | h
  · rcases List.exists_mem_of_ne_nil l hne with ⟨y, hy⟩
    have h1 := (foldl_max_ge l a).2 y hy
    have h2 : l.foldl max a ≤ y := by
      rw [h]
      exact hlb y hy
    have h3 : l.foldl max a = y := le_antisymm h2 h1
    rw [h3]
    exact hy
  · exact h

/-- C3: when the reporter's accepted-sample count reaches the window
size 10, it emits a summary whose per-channel min, max and average are
computed from exactly the 10 accepted raw values (average = accumulated
sum divided by 10) and resets the accumulator to the sentinel extrema
(min 4095, max 0, sums and count 0). -/
theorem reporter_window (pairs : List (ℤ × ℤ))
    (hlen : pairs.length = HISTORY_SIZE)
    (hbound : ∀ p ∈ pairs, 0 ≤ p.1 ∧ p.1 ≤ 4095 ∧ 0 ≤ p.2 ∧ p.2 ≤ 4095) :
    ∃ summary : Summary,
      stats_report (pairs.foldl (fun t p => stats_accept t p.1 p.2)
          stats_reset) = (some summary, stats_reset) ∧
      summary.light_min ∈ pairs.map Prod.fst ∧
      (∀ x ∈ pairs.map Prod.fst, summary.light_min ≤ x) ∧
      summary.light_max ∈ pairs.map Prod.fst ∧
      (∀ x ∈ pairs.map Prod.fst, x ≤ summary.light_max) ∧
      summary.light_avg =
        (((pairs.map Prod.fst).sum : ℤ) : ℚ) / (HISTORY_SIZE : ℚ) ∧
      summary.water_min ∈ pairs.map Prod.snd ∧
      (∀ x ∈ pairs.map Prod.snd, summary.water_min ≤ x) ∧
      summary.water_max ∈ pairs.map Prod.snd ∧
      (∀ x ∈ pairs.map Prod.snd, x ≤ summary.water_max) ∧
      summary.water_avg =
        (((pairs.map Prod.snd).sum : ℤ) : ℚ) / (HISTORY_SIZE : ℚ) := by
  have hfold := stats_accept_foldl pairs stats_reset
  have hlne : pairs.map Prod.fst ≠ [] := by
    have hpos : 0 < (pairs.map Prod.fst).length := by
      rw [List.length_map, hlen]
      decide
    exact List.length_pos.mp hpos
  have hwne : pairs.map Prod.snd ≠ [] := by
    have hpos : 0 < (pairs.map Prod.snd).length := by
      rw [List.length_map, hlen]
      decide
    exact List.length_pos.mp hpos
  have hlub : ∀ x ∈ pairs.map Prod.fst, x ≤ 4095 := by
    intro x hx
    rcases List.mem_map.mp hx with ⟨p, hp, rfl⟩
    exact (hbound p hp).2.1
  have hllb : ∀ x ∈ pairs.map Prod.fst, 0 ≤ x := by
    intro x hx
    rcases List.mem_map.mp hx with ⟨p, hp, rfl⟩
    exact (hbound p hp).1
  have hwub : ∀ x ∈ pairs.map Prod.snd, x ≤ 4095 := by
    intro x hx
    rcases List.mem_map.mp hx with ⟨p, hp, rfl⟩
    exact (hbound p hp).2.2.2
  have hwlb : ∀ x ∈ pairs.map Prod.snd, 0 ≤ x := by
    intro x hx
    rcases List.mem_map.mp hx with ⟨p, hp, rfl⟩
    exact (hbound p hp).2.2.1
  refine ⟨{ light_min := (pairs.map Prod.fst).foldl min 4095,
            light_max := (pairs.map Prod.fst).foldl max 0,
            light_avg :=
              (((pairs.map Prod.fst).sum : ℤ) : ℚ) / (HISTORY_SIZE : ℚ),
            water_min := (pairs.map Prod.snd).foldl min 4095,
            water_max := (pairs.map Prod.snd).foldl max 0,
            water_avg :=
              (((pairs.map Prod.snd).sum : ℤ) : ℚ) / (HISTORY_SIZE : ℚ) },
          ?_, ?_, ?_, ?_, ?_, rfl, ?_, ?_, ?_, ?_, rfl⟩
  · rw [hfold]
    simp [stats_report, stats_reset, hlen]
  · exact foldl_min_mem_of_le _ 4095 hlne hlub
  · intro x hx
    exact (foldl_min_le (pairs.map Prod.fst) 4095).2 x hx
  · exact foldl_max_mem_of_le _ 0 hlne hllb
  · intro x hx
    exact (foldl_max_ge (pairs.map Prod.fst) 0).2 x hx
  · exact foldl_min_mem_of_le _ 4095 hwne hwub
  · intro x hx
    exact (foldl_min_le (pairs.map Prod.snd) 4095).2 x hx
  · exact foldl_max_mem_of_le _ 0 hwne hwlb
  · intro x hx
    exact (foldl_max_ge (pairs.map Prod.snd) 0).2 x hx

/-- A concrete 10-sample window of joint (light, water) raw readings,
starting from the spec's normal-cycle scenario values 2847 and 1534. -/
def windowPairs : List (ℤ × ℤ) :=
  [(2847, 1534), (100, 40), (0, 4095), (4095, 0), (500, 600),
   (700, 800), (900, 1000), (1100, 1200), (1300, 1400), (1500, 1600)]

/-- Witness for `reporter_window` at the concrete window
`windowPairs`. -/
theorem reporter_window_witness :
    (windowPairs.length = HISTORY_SIZE ∧
      ∀ p ∈ windowPairs, 0 ≤ p.1 ∧ p.1 ≤ 4095 ∧ 0 ≤ p.2 ∧ p.2 ≤ 4095) ∧
    (∃ summary : Summary,
      stats_report (windowPairs.foldl (fun t p => stats_accept t p.1 p.2)
          stats_reset) = (some summary, stats_reset) ∧
      summary.light_min ∈ windowPairs.map Prod.fst ∧
      (∀ x ∈ windowPairs.map Prod.fst, summary.light_min ≤ x) ∧
      summary.light_max ∈ windowPairs.map Prod.fst ∧
      (∀ x ∈ windowPairs.map Prod.fst, x ≤ summary.light_max) ∧
      summary.light_avg =
        (((windowPairs.map Prod.fst).sum : ℤ) : ℚ) / (HISTORY_SIZE : ℚ) ∧
      summary.water_min ∈ windowPairs.map Prod.snd ∧
      (∀ x ∈ windowPairs.map Prod.snd, summary.water_min ≤ x) ∧
      summary.water_max ∈ windowPairs.map Prod.snd ∧
      (∀ x ∈ windowPairs.map Prod.snd, x ≤ summary.water_max) ∧
      summary.water_avg =
        (((windowPairs.map Prod.snd).sum : ℤ) : ℚ) / (HISTORY_SIZE : ℚ)) :=
  ⟨⟨by decide, by decide⟩,
   reporter_window windowPairs (by decide) (by decide)⟩

end Geekhouse
